import Mathlib

/-!
Verification of the `segment-display` driver (src/lib.rs): a multiplexed
4-digit 7-segment display controller driven over a byte transport (SPI)
and a strobe/latch output pin.

The embedding translates the Rust source shallowly:
* the lookup tables `NUMERALS` and `LETTERS` become `List Nat` constants;
* `char_to_segment_code` becomes a total function on `Char`;
* the `SegmentDisplay` struct becomes a structure whose `spi` / `latch_pin`
  fields are opaque values of type parameters (the driver never inspects
  them, it only issues calls to them);
* the fallible I/O performed by `refresh` / `refresh_with_delay` is given a
  trace semantics: each call takes, per collaborator invocation, an optional
  error (`none` = the call succeeds) and returns the updated display, the
  `Result`, and the ordered list of I/O events that were issued.
Machine integers (`u8`, `usize`) are modelled as `Nat`; the only places the
source relies on wrap-around (`& 0b11`, the `u8` shift) keep the explicit
bit operations of the source.
-/

namespace SegmentDriver

/-- Source `static NUMERALS: [u8; 10]` — active-low segment patterns for digits
0–9, bit layout `.GFE_DCBA` (bit 7 = decimal point, bit 6 = G, …, bit 0 = A).
Values transcribed from the source in hex:
`0b1100_0000, 0b1111_1001, 0b1010_0100, 0b1011_0000, 0b1001_1001,
 0b1001_0010, 0b1000_0010, 0b1111_1000, 0b1000_0000, 0b1001_1000`. -/
def NUMERALS : List Nat :=
  [0xC0, 0xF9, 0xA4, 0xB0, 0x99, 0x92, 0x82, 0xF8, 0x80, 0x98]

/-- Source `static LETTERS: [u8; 26]` — active-low segment patterns for A–Z,
transcribed from the source in hex (A = `0b1000_1000` = 0x88, …). -/
def LETTERS : List Nat :=
  [0x88, 0x83, 0xC6, 0xA1, 0x86, 0x8E, 0xC2, 0x89, 0xCF, 0xE1,
   0x8A, 0xC7, 0xEA, 0xC8, 0xC0, 0x8C, 0x94, 0xCC, 0x92, 0x87,
   0xC1, 0xC1, 0xD5, 0x89, 0x91, 0xA4]

/-- Rust `char::is_ascii_digit`: true exactly on `'0'..='9'`. -/
def isAsciiDigit (c : Char) : Bool :=
  0x30 ≤ c.toNat && c.toNat ≤ 0x39

/-- Rust `char::is_ascii_alphabetic`: true exactly on `'A'..='Z'` and
`'a'..='z'`. -/
def isAsciiAlphabetic (c : Char) : Bool :=
  (0x41 ≤ c.toNat && c.toNat ≤ 0x5A) || (0x61 ≤ c.toNat && c.toNat ≤ 0x7A)

/-- Source `SegmentDisplay::char_to_segment_code`.  For ASCII digits it indexes
`NUMERALS`, for ASCII letters it clears bit 5 (`& !0x20`, upper-casing) and
indexes `LETTERS`; the trailing Rust `match` on symbols is the equality
chain on `' '`, `'-'`, `'_'` with fall-through `0b1111_1111`. -/
def char_to_segment_code (c : Char) : Nat :=
  if isAsciiDigit c then
    NUMERALS.getD (c.toNat - 0x30) 0
  else if isAsciiAlphabetic c then
    LETTERS.getD (Nat.land c.toNat 0xDF - 0x41) 0
  else if c = ' ' then 0xFF
  else if c = '-' then 0xBF
  else if c = '_' then 0xF7
  else 0xFF

/-- The spec's Encoder operation `encode_digit(n)`: the `NUMERALS[digit]`
indexing used by `write_number`. -/
def encode_digit (n : Nat) : Nat := NUMERALS.getD n 0

/-- Source `pub enum Error<SpiError, PinError> { Spi(SpiError), Pin(PinError) }`. -/
inductive Error (SpiError PinError : Type) where
  | Spi : SpiError → Error SpiError PinError
  | Pin : PinError → Error SpiError PinError
  deriving DecidableEq

/-- One I/O invocation issued by the driver on its collaborators, in program
order: a strobe-pin edge, a transport write of a byte sequence, or a delay. -/
inductive Event where
  | setLow : Event
  | setHigh : Event
  | spiWrite : List Nat → Event
  | delayUs : Nat → Event
  deriving DecidableEq

/-- Source `pub struct SegmentDisplay<SPI, PIN>`: 4-byte back buffer, the two owned
collaborators, and the rotating digit cursor (`current_digit: usize`). -/
structure SegmentDisplay (SPI PIN : Type) where
  back_buffer : List Nat
  spi : SPI
  latch_pin : PIN
  current_digit : Nat
  deriving DecidableEq

variable {SPI PIN σε πε : Type}

/-- Source `SegmentDisplay::new`: back buffer `[0xff; 4]`, cursor 0. -/
def SegmentDisplay.new (spi : SPI) (latch_pin : PIN) : SegmentDisplay SPI PIN :=
  { back_buffer := [0xFF, 0xFF, 0xFF, 0xFF]
    spi := spi
    latch_pin := latch_pin
    current_digit := 0 }

/-- Source `SegmentDisplay::release`: consume the controller, returning the owned
collaborators. -/
def SegmentDisplay.release (d : SegmentDisplay SPI PIN) : SPI × PIN :=
  (d.spi, d.latch_pin)

/-- The 2-byte `segments_and_select` array built by `refresh` and
`refresh_with_delay`: `[back_buffer[current_digit], 1 << (4 - 1 - current_digit)]`
(`u8` entries, hence the `% 256`). -/
def SegmentDisplay.payload (d : SegmentDisplay SPI PIN) : List Nat :=
  [d.back_buffer.getD d.current_digit 0,
   1 <<< (4 - 1 - d.current_digit) % 256]

/-- Source `SegmentDisplay::refresh`.  `respLow`, `respWrite`, `respHigh` are the
outcomes of the (at most one each) `set_low`, `spi.write`, `set_high` calls,
should they be reached: `none` = the call succeeds, `some e` = it fails with
`e`.  Returns the updated display, the `Result`, and the ordered trace of
collaborator invocations actually issued (a failing call is still issued, so
it still appears in the trace).  Mirrors the source line by line: build the
payload, advance the cursor (`(current_digit + 1) & 0b11`) before any I/O,
then `set_low()?`, `spi.write(&payload)?`, `set_high()?`. -/
def SegmentDisplay.refresh (d : SegmentDisplay SPI PIN)
    (respLow : Option πε) (respWrite : Option σε) (respHigh : Option πε) :
    SegmentDisplay SPI PIN × Except (Error σε πε) Unit × List Event :=
  let segments_and_select : List Nat :=
    [d.back_buffer.getD d.current_digit 0,
     1 <<< (4 - 1 - d.current_digit) % 256]
  let d1 := { d with current_digit := Nat.land (d.current_digit + 1) 0b11 }
  match respLow with
  | some e => (d1, Except.error (Error.Pin e), [Event.setLow])
  | none =>
    match respWrite with
    | some e =>
        (d1, Except.error (Error.Spi e),
         [Event.setLow, Event.spiWrite segments_and_select])
    | none =>
      match respHigh with
      | some e =>
          (d1, Except.error (Error.Pin e),
           [Event.setLow, Event.spiWrite segments_and_select, Event.setHigh])
      | none =>
          (d1, Except.ok (),
           [Event.setLow, Event.spiWrite segments_and_select, Event.setHigh])

/-- Source `SegmentDisplay::refresh_with_delay`: identical to `refresh` except for
the infallible `delay.delay_us(100)` issued between the transport write and
the final `set_high`. -/
def SegmentDisplay.refresh_with_delay (d : SegmentDisplay SPI PIN)
    (respLow : Option πε) (respWrite : Option σε) (respHigh : Option πε) :
    SegmentDisplay SPI PIN × Except (Error σε πε) Unit × List Event :=
  let segments_and_select : List Nat :=
    [d.back_buffer.getD d.current_digit 0,
     1 <<< (4 - 1 - d.current_digit) % 256]
  let d1 := { d with current_digit := Nat.land (d.current_digit + 1) 0b11 }
  match respLow with
  | some e => (d1, Except.error (Error.Pin e), [Event.setLow])
  | none =>
    match respWrite with
    | some e =>
        (d1, Except.error (Error.Spi e),
         [Event.setLow, Event.spiWrite segments_and_select])
    | none =>
      match respHigh with
      | some e =>
          (d1, Except.error (Error.Pin e),
           [Event.setLow, Event.spiWrite segments_and_select,
            Event.delayUs 100, Event.setHigh])
      | none =>
          (d1, Except.ok (),
           [Event.setLow, Event.spiWrite segments_and_select,
            Event.delayUs 100, Event.setHigh])

/-- Source `SegmentDisplay::write_chars(buf: [char; 4])`: encode the four characters
left to right into the back buffer. -/
def SegmentDisplay.write_chars (d : SegmentDisplay SPI PIN)
    (buf : Char × Char × Char × Char) : SegmentDisplay SPI PIN :=
  { d with back_buffer :=
      ((((d.back_buffer.set 0 (char_to_segment_code buf.1)).set 1
          (char_to_segment_code buf.2.1)).set 2
          (char_to_segment_code buf.2.2.1)).set 3
          (char_to_segment_code buf.2.2.2)) }

/-- Source `SegmentDisplay::write_str`: blank every back-buffer slot to `!0 = 0xFF`,
then encode the first (at most) 4 characters into slots 0, 1, 2, … -/
def SegmentDisplay.write_str (d : SegmentDisplay SPI PIN) (s : List Char) :
    SegmentDisplay SPI PIN :=
  let cleared := d.back_buffer.map (fun _ => 0xFF)
  let bb :=
    ((s.take 4).enum).foldl
      (fun bb ic => bb.set ic.1 (char_to_segment_code ic.2)) cleared
  { d with back_buffer := bb }

/-- Source `SegmentDisplay::write_number`: clamp to 9999, then the source's loop over
`[1000, 100, 10].iter().enumerate()` (note the guard `num >= i` compares
against the loop index `i`, exactly as the source does), and finally
`back_buffer[3] = NUMERALS[num]`. -/
def SegmentDisplay.write_number (d : SegmentDisplay SPI PIN) (num : Nat) :
    SegmentDisplay SPI PIN :=
  let num0 := if num > 9999 then 9999 else num
  let p :=
    [(0, 1000), (1, 100), (2, 10)].foldl
      (fun (p : Nat × List Nat) (idiv : Nat × Nat) =>
        if p.1 ≥ idiv.1 then
          let digit := p.1 / idiv.2
          (p.1 - idiv.2 * digit, p.2.set idiv.1 (NUMERALS.getD digit 0))
        else
          (p.1, p.2.set idiv.1 (NUMERALS.getD 0 0)))
      (num0, d.back_buffer)
  { d with back_buffer := p.2.set 3 (NUMERALS.getD p.1 0) }

/-- The operations a caller can interleave before `release`: the three
buffer-mutation operations and the two refresh variants (each refresh tagged
with the outcomes of its collaborator calls). -/
inductive Op (σε πε : Type) where
  | wchars : Char × Char × Char × Char → Op σε πε
  | wstr : List Char → Op σε πε
  | wnum : Nat → Op σε πε
  | refr : Option πε → Option σε → Option πε → Op σε πε
  | refrDelay : Option πε → Option σε → Option πε → Op σε πε

/-- Run one `Op` on a display, keeping the updated display state. -/
def applyOp (d : SegmentDisplay SPI PIN) : Op σε πε → SegmentDisplay SPI PIN
  | Op.wchars buf => d.write_chars buf
  | Op.wstr s => d.write_str s
  | Op.wnum n => d.write_number n
  | Op.refr a b c => (d.refresh a b c).1
  | Op.refrDelay a b c => (d.refresh_with_delay a b c).1

/-- Bridge lemma `x & 0b11 = x % 4`: the cursor-advance mask of the source is reduction
mod 4. -/
theorem land_three_eq_mod (x : Nat) : Nat.land x 0b11 = x % 4 := by
  have h := Nat.and_pow_two_sub_one_eq_mod x 2
  simpa using h

/-- C1: with cursor `c < 4`, a successful `refresh` issues exactly one
transport write, of exactly the two bytes `[back_buffer[c], 1 <<< (3 - c)]`
in that order, and that write sits strictly between the strobe set-low and
set-high calls. -/
theorem refresh_success_writes_payload (d : SegmentDisplay SPI PIN)
    (hc : d.current_digit < 4) (hb : d.back_buffer.length = 4) :
    (d.refresh (none : Option πε) (none : Option σε) none).2.1 = Except.ok () ∧
    (d.refresh (none : Option πε) (none : Option σε) none).2.2 =
      [Event.setLow,
       Event.spiWrite
         [d.back_buffer.get ⟨d.current_digit, by omega⟩,
          2 ^ (3 - d.current_digit)],
       Event.setHigh] := by
  refine ⟨rfl, ?_⟩
  have hque : (1 : Nat) <<< (4 - 1 - d.current_digit) % 256
      = 2 ^ (3 - d.current_digit) := by
    rw [Nat.shiftLeft_eq, one_mul]
    have h3 : 4 - 1 - d.current_digit = 3 - d.current_digit := by omega
    rw [h3]
    have hlt : (2 : Nat) ^ (3 - d.current_digit) < 256 := by
      calc (2 : Nat) ^ (3 - d.current_digit) ≤ 2 ^ 3 :=
            Nat.pow_le_pow_right (by omega) (by omega)
        _ < 256 := by omega
    exact Nat.mod_eq_of_lt hlt
  have hgd : d.back_buffer.getD d.current_digit 0
      = d.back_buffer.get ⟨d.current_digit, by omega⟩ := by
    rw [List.getD_eq_getElem d.back_buffer 0 (by omega)]
    simp
  simp only [SegmentDisplay.refresh, hque, hgd]

/-- Closed instance of C1: buffer `[10, 20, 30, 40]`, cursor 1 — the
transmitted bytes are `[20, 4]`, between set-low and set-high. -/
theorem refresh_success_writes_payload_witness :
    ((⟨[10, 20, 30, 40], (), (), 1⟩ : SegmentDisplay Unit Unit).refresh
        (none : Option Unit) (none : Option Unit) none).2.1 = Except.ok () ∧
    ((⟨[10, 20, 30, 40], (), (), 1⟩ : SegmentDisplay Unit Unit).refresh
        (none : Option Unit) (none : Option Unit) none).2.2 =
      [Event.setLow, Event.spiWrite [20, 4], Event.setHigh] := by
  have h := @refresh_success_writes_payload Unit Unit Unit Unit
    ⟨[10, 20, 30, 40], (), (), 1⟩ (by decide) (by decide)
  exact ⟨h.1, by rw [h.2]; rfl⟩

/-- C3: from a fresh controller, four successful `refresh` calls transmit the
digit-select masks `0b1000, 0b0100, 0b0010, 0b0001` in that order, the 5th
repeats the 1st, and the cursor cycles `0,1,2,3,0,1` (always in `[0,4)`). -/
theorem refresh_mask_cycle (t : SPI) (p : PIN) :
    let d0 : SegmentDisplay SPI PIN := SegmentDisplay.new t p
    let r1 := d0.refresh (none : Option πε) (none : Option σε) none
    let r2 := r1.1.refresh (none : Option πε) (none : Option σε) none
    let r3 := r2.1.refresh (none : Option πε) (none : Option σε) none
    let r4 := r3.1.refresh (none : Option πε) (none : Option σε) none
    let r5 := r4.1.refresh (none : Option πε) (none : Option σε) none
    r1.2.2 = [Event.setLow, Event.spiWrite [0xFF, 0b1000], Event.setHigh] ∧
    r2.2.2 = [Event.setLow, Event.spiWrite [0xFF, 0b0100], Event.setHigh] ∧
    r3.2.2 = [Event.setLow, Event.spiWrite [0xFF, 0b0010], Event.setHigh] ∧
    r4.2.2 = [Event.setLow, Event.spiWrite [0xFF, 0b0001], Event.setHigh] ∧
    r5.2.2 = r1.2.2 ∧
    d0.current_digit = 0 ∧ r1.1.current_digit = 1 ∧ r2.1.current_digit = 2 ∧
    r3.1.current_digit = 3 ∧ r4.1.current_digit = 0 ∧ r5.1.current_digit = 1 := by
  simp [SegmentDisplay.refresh, SegmentDisplay.new, land_three_eq_mod,
    Nat.shiftLeft_eq]

/-- C4: when the transport write fails, `refresh` returns `Error.Spi` wrapping
the transport's error, and the cursor has already advanced mod 4. -/
theorem refresh_spi_error_advances_cursor (d : SegmentDisplay SPI PIN)
    (e : σε) (respHigh : Option πε) :
    (d.refresh none (some e) respHigh).2.1 = Except.error (Error.Spi e) ∧
    (d.refresh none (some e) respHigh).1.current_digit
      = (d.current_digit + 1) % 4 := by
  refine ⟨rfl, ?_⟩
  simp [SegmentDisplay.refresh, land_three_eq_mod]

/-- C5: when the strobe set-low call fails, `refresh` returns `Error.Pin`
wrapping the pin's error, the issued trace is just the failed set-low, and in
particular the transport write is never invoked. -/
theorem refresh_pin_low_error_no_write (d : SegmentDisplay SPI PIN)
    (e : πε) (respWrite : Option σε) (respHigh : Option πε) :
    (d.refresh (some e) respWrite respHigh).2.1 = Except.error (Error.Pin e) ∧
    (d.refresh (some e) respWrite respHigh).2.2 = [Event.setLow] ∧
    ∀ bs, Event.spiWrite bs ∉ (d.refresh (some e) respWrite respHigh).2.2 := by
  refine ⟨rfl, rfl, ?_⟩
  intro bs h
  simp [SegmentDisplay.refresh] at h

/-- Closed instance of C5: on a concrete display whose set-low call fails,
the result is a Pin error and the payload write event is absent from the
trace. -/
theorem refresh_pin_low_error_no_write_witness :
    ((⟨[1, 2, 3, 4], (), (), 0⟩ : SegmentDisplay Unit Unit).refresh
        (some ()) (none : Option Unit) none).2.1
      = Except.error (Error.Pin ()) ∧
    Event.spiWrite [1, 8] ∉
      ((⟨[1, 2, 3, 4], (), (), 0⟩ : SegmentDisplay Unit Unit).refresh
        (some ()) (none : Option Unit) none).2.2 :=
  ⟨(refresh_pin_low_error_no_write
      (⟨[1, 2, 3, 4], (), (), 0⟩ : SegmentDisplay Unit Unit) () none none).1,
   (refresh_pin_low_error_no_write
      (⟨[1, 2, 3, 4], (), (), 0⟩ : SegmentDisplay Unit Unit) () none none).2.2
     [1, 8]⟩

/-- C9: after any sequence of buffer-mutation and refresh operations,
`release` returns exactly the transport and pin passed to `new`. -/
theorem release_roundtrip (t : SPI) (p : PIN) (ops : List (Op σε πε)) :
    (ops.foldl applyOp (SegmentDisplay.new t p)).release = (t, p) := by
  have key : ∀ (d : SegmentDisplay SPI PIN) (op : Op σε πε),
      (applyOp d op).spi = d.spi ∧ (applyOp d op).latch_pin = d.latch_pin := by
    intro d op
    cases op with
    | wchars buf => exact ⟨rfl, rfl⟩
    | wstr s => exact ⟨rfl, rfl⟩
    | wnum n => exact ⟨rfl, rfl⟩
    | refr a b c => cases a <;> cases b <;> cases c <;> exact ⟨rfl, rfl⟩
    | refrDelay a b c => cases a <;> cases b <;> cases c <;> exact ⟨rfl, rfl⟩
  have main : ∀ (l : List (Op σε πε)) (d : SegmentDisplay SPI PIN),
      (l.foldl applyOp d).spi = d.spi ∧
      (l.foldl applyOp d).latch_pin = d.latch_pin := by
    intro l
    induction l with
    | nil => intro d; exact ⟨rfl, rfl⟩
    | cons op rest ih =>
        intro d
        have h1 := key d op
        have h2 := ih (applyOp d op)
        exact ⟨h2.1.trans h1.1, h2.2.trans h1.2⟩
  have h := main ops (SegmentDisplay.new t p)
  unfold SegmentDisplay.release
  rw [h.1, h.2]
  rfl

/-- C10: when the final strobe set-high fails (set-low and the transport
write having succeeded), both `refresh` and `refresh_with_delay` return
`Error.Pin`, yet the 2-byte payload was already written to the transport and
the cursor already advanced mod 4 — nothing is rolled back. -/
theorem refresh_pin_high_error_effects (d : SegmentDisplay SPI PIN) (e : πε) :
    (d.refresh (none : Option πε) (none : Option σε) (some e)).2.1
        = Except.error (Error.Pin e) ∧
    (d.refresh (none : Option πε) (none : Option σε) (some e)).2.2
        = [Event.setLow, Event.spiWrite d.payload, Event.setHigh] ∧
    (d.refresh (none : Option πε) (none : Option σε) (some e)).1.current_digit
        = (d.current_digit + 1) % 4 ∧
    (d.refresh_with_delay (none : Option πε) (none : Option σε) (some e)).2.1
        = Except.error (Error.Pin e) ∧
    (d.refresh_with_delay (none : Option πε) (none : Option σε) (some e)).2.2
        = [Event.setLow, Event.spiWrite d.payload, Event.delayUs 100,
           Event.setHigh] ∧
    (d.refresh_with_delay (none : Option πε) (none : Option σε)
        (some e)).1.current_digit = (d.current_digit + 1) % 4 := by
  refine ⟨rfl, rfl, ?_, rfl, rfl, ?_⟩ <;>
    simp [SegmentDisplay.refresh, SegmentDisplay.refresh_with_delay,
      land_three_eq_mod]

/-- A list of length 4 is a 4-element literal. -/
theorem list_length_four {α : Type} {l : List α} (h : l.length = 4) :
    ∃ a b c e, l = [a, b, c, e] := by
  rcases l with _ | ⟨a, _ | ⟨b, _ | ⟨c, _ | ⟨e, _ | ⟨f, t⟩⟩⟩⟩⟩ <;> simp_all

/-- C6: the operation `write_str` blanks all 4 slots to `0xFF`, then encodes at most the
first 4 characters left to right; characters beyond the 4th are ignored and
slots past the end of a short string stay `0xFF`. -/
theorem write_str_truncates (d : SegmentDisplay SPI PIN) (s : List Char)
    (hb : d.back_buffer.length = 4) :
    (d.write_str s).back_buffer =
      (s.take 4).map char_to_segment_code
        ++ List.replicate (4 - s.length) 0xFF := by
  obtain ⟨b0, b1, b2, b3, hbb⟩ := list_length_four hb
  rcases s with _ | ⟨c0, _ | ⟨c1, _ | ⟨c2, _ | ⟨c3, rest⟩⟩⟩⟩ <;>
    simp [SegmentDisplay.write_str, hbb, List.enum, List.enumFrom, List.set]

/-- Closed instance of C6: a 6-character string fills the 4 slots from its
first 4 characters; a 2-character string leaves slots 2 and 3 at `0xFF`. -/
theorem write_str_truncates_witness :
    ((⟨[1, 2, 3, 4], (), (), 0⟩ : SegmentDisplay Unit Unit).write_str
        [Char.ofNat 72, Char.ofNat 69, Char.ofNat 76, Char.ofNat 76,
         Char.ofNat 79, Char.ofNat 33]).back_buffer =
      [char_to_segment_code (Char.ofNat 72), char_to_segment_code (Char.ofNat 69),
       char_to_segment_code (Char.ofNat 76), char_to_segment_code (Char.ofNat 76)] ∧
    ((⟨[1, 2, 3, 4], (), (), 0⟩ : SegmentDisplay Unit Unit).write_str
        [Char.ofNat 72, Char.ofNat 73]).back_buffer =
      [char_to_segment_code (Char.ofNat 72), char_to_segment_code (Char.ofNat 73),
       0xFF, 0xFF] := by
  constructor
  · have h := write_str_truncates
      (⟨[1, 2, 3, 4], (), (), 0⟩ : SegmentDisplay Unit Unit)
      [Char.ofNat 72, Char.ofNat 69, Char.ofNat 76, Char.ofNat 76,
       Char.ofNat 79, Char.ofNat 33] (by decide)
    rw [h]; rfl
  · have h := write_str_truncates
      (⟨[1, 2, 3, 4], (), (), 0⟩ : SegmentDisplay Unit Unit)
      [Char.ofNat 72, Char.ofNat 73] (by decide)
    rw [h]; rfl

/-- C7: the encoder `char_to_segment_code` is total; space maps to `0xFF` (all segments
off, active-low); `'-'` turns on exactly the middle G segment (bit 6 is the
only clear bit); `'_'` turns on exactly the bottom D segment (bit 3 is the
only clear bit); every character that is neither an ASCII digit, nor an
ASCII letter, nor one of `' '`, `'-'`, `'_'` maps to `0xFF`. -/
theorem encode_char_total_symbols :
    char_to_segment_code ' ' = 0xFF ∧
    (∀ k, k < 8 →
      (Nat.testBit (char_to_segment_code '-') k = false ↔ k = 6)) ∧
    (∀ k, k < 8 →
      (Nat.testBit (char_to_segment_code '_') k = false ↔ k = 3)) ∧
    (∀ c : Char, isAsciiDigit c = false → isAsciiAlphabetic c = false →
      c ≠ ' ' → c ≠ '-' → c ≠ '_' → char_to_segment_code c = 0xFF) := by
  refine ⟨by decide, by decide, by decide, ?_⟩
  intro c h1 h2 h3 h4 h5
  simp [char_to_segment_code, h1, h2, h3, h4, h5]

/-- Closed instance of C7: `'!'` (outside digits, letters and the three
special symbols) maps to `0xFF`, and bit 6 of the `'-'` pattern is clear. -/
theorem encode_char_total_symbols_witness :
    char_to_segment_code (Char.ofNat 33) = 0xFF ∧
    (Nat.testBit (char_to_segment_code '-') 6 = false ↔ 6 = 6) := by
  constructor
  · exact encode_char_total_symbols.2.2.2 (Char.ofNat 33) (by decide)
      (by decide) (by decide) (by decide) (by decide)
  · exact encode_char_total_symbols.2.1 6 (by decide)

/-- C8: for each of the 26 letter positions, the lower-case character
(codepoint `0x61 + n`) encodes to the same pattern as the upper-case one
(codepoint `0x41 + n`): lower case is normalized by `& !0x20` before the
`LETTERS` lookup. -/
theorem encode_char_case_insensitive :
    ∀ n, n < 26 →
      char_to_segment_code (Char.ofNat (0x61 + n))
        = char_to_segment_code (Char.ofNat (0x41 + n)) := by
  decide

/-- Closed instance of C8: `'e'` and `'E'` share a pattern. -/
theorem encode_char_case_insensitive_witness :
    char_to_segment_code (Char.ofNat (0x61 + 4))
      = char_to_segment_code (Char.ofNat (0x41 + 4)) :=
  encode_char_case_insensitive 4 (by decide)

/-- C2: the operation `write_number n` clamps `n` to at most 9999 (any `m > 9999` behaves
exactly like 9999) and writes the thousands, hundreds, tens and units digit
patterns of the clamped value into slots 0–3, with no leading-zero
suppression. -/
theorem write_number_clamps_and_decomposes (d : SegmentDisplay SPI PIN)
    (n : Nat) (hb : d.back_buffer.length = 4) :
    (d.write_number n).back_buffer =
      [encode_digit (min n 9999 / 1000 % 10),
       encode_digit (min n 9999 / 100 % 10),
       encode_digit (min n 9999 / 10 % 10),
       encode_digit (min n 9999 % 10)] ∧
    ∀ m, 9999 < m → d.write_number m = d.write_number 9999 := by
  constructor
  · obtain ⟨b0, b1, b2, b3, hbb⟩ := list_length_four hb
    have hmin : (if n > 9999 then 9999 else n) = min n 9999 := by
      rw [Nat.min_def]; split <;> split <;> omega
    simp only [SegmentDisplay.write_number, hbb, List.foldl_cons,
      List.foldl_nil, hmin]
    set m := min n 9999 with hm
    have hm9999 : m ≤ 9999 := by omega
    split_ifs with h1 h2 h3 h2 h3 h3 h3 <;>
      simp only [List.set, encode_digit, List.cons.injEq, and_true] <;>
      refine ⟨?_, ?_, ?_, ?_⟩ <;> (congr 1; omega)
  · intro m hm
    simp only [SegmentDisplay.write_number]
    rw [if_pos hm, if_neg (by omega)]

/-- Closed instance of C2: `write_number 7` renders `0007` (leading zeros),
and `write_number 123456` equals `write_number 9999` (clamping). -/
theorem write_number_clamps_and_decomposes_witness :
    ((⟨[1, 2, 3, 4], (), (), 0⟩ : SegmentDisplay Unit Unit).write_number
        7).back_buffer =
      [encode_digit 0, encode_digit 0, encode_digit 0, encode_digit 7] ∧
    (⟨[1, 2, 3, 4], (), (), 0⟩ : SegmentDisplay Unit Unit).write_number 123456
      = (⟨[1, 2, 3, 4], (), (), 0⟩ : SegmentDisplay Unit Unit).write_number
          9999 := by
  have h := write_number_clamps_and_decomposes
    (⟨[1, 2, 3, 4], (), (), 0⟩ : SegmentDisplay Unit Unit) 7 (by decide)
  refine ⟨?_, h.2 123456 (by omega)⟩
  rw [h.1]
  decide

end SegmentDriver
